import Mathlib

/-!
Verification development for the anatomical-data resolution logic of
`qsirecon` (file `qsirecon/workflows/recon/anatomical.py`).

The development is a shallow embedding of the graph-construction code:

* a filesystem is a list of existing path strings;
* a nipype workflow is a list of explicitly added node names plus a list of
  edges, where an edge records source node, source port, destination node and
  destination port, exactly as in the `workflow.connect` calls of the source;
* Python exceptions are modelled with `Except String`;
* the two field-ownership sets of the field router
  (`connect_from_inputnode` / `connect_from_buffernode`) are lists of field
  names with Python-set semantics (membership is what matters; insertions
  skip elements that are already present).

The field lists `recon_workflow_input_fields` and `FS_FILES_TO_REGISTER`
are imported by the source from `qsirecon/interfaces/interchange.py`, which
is not part of the sources here; both are therefore parameters of the
embedded functions, and the theorems quantify over them.
-/

namespace QSIRecon

/-- Edge of a nipype workflow graph: one `(src, dst, [(srcPort, dstPort)])`
entry of a `workflow.connect` call. -/
structure Edge where
  srcNode : String
  srcPort : String
  dstNode : String
  dstPort : String
deriving DecidableEq, Repr

/-- A workflow graph: node names added explicitly via `add_nodes`, plus the
connection list.  Nodes referenced by an edge are implicitly part of the
graph, as in nipype. -/
structure Wf where
  nodes : List String
  edges : List Edge
deriving DecidableEq, Repr

/-- A node belongs to the graph if it was added explicitly or appears in an
edge. -/
def Wf.containsNode (w : Wf) (n : String) : Bool :=
  w.nodes.contains n ||
    w.edges.any (fun e => e.srcNode == n || e.dstNode == n)

/-- Python-set insertion on a list: a no-op when the element is already
present. -/
def setInsert (xs : List String) (x : String) : List String :=
  if xs.contains x then xs else xs ++ [x]

/-- Python `set(...)` applied to a list of strings (deduplication; membership
is preserved). -/
def pySet (l : List String) : List String :=
  l.foldl setInsert []

theorem mem_setInsert (xs : List String) (x f : String) :
    f ∈ setInsert xs x ↔ f ∈ xs ∨ f = x := by
  unfold setInsert
  by_cases h : x ∈ xs
  · have hc : xs.contains x = true := by simpa using h
    simp only [hc, if_true]
    constructor
    · exact Or.inl
    · rintro (hf | rfl)
      · exact hf
      · exact h
  · simp [h, List.mem_append]

theorem mem_foldl_setInsert (l acc : List String) (f : String) :
    f ∈ l.foldl setInsert acc ↔ f ∈ acc ∨ f ∈ l := by
  induction l generalizing acc with
  | nil => simp
  | cons x xs ih =>
    simp only [List.foldl_cons, ih, mem_setInsert, List.mem_cons]
    tauto

theorem mem_pySet (l : List String) (f : String) :
    f ∈ pySet l ↔ f ∈ l := by
  unfold pySet
  rw [mem_foldl_setInsert]
  simp

/-! ### Requirement lists (`anatomical.py` lines 39-62)

`QSIRECON_ANAT_REQUIREMENTS` and `QSIRECON_NORMALIZED_ANAT_REQUIREMENTS` are
Python format strings instantiated with `requirement.format(subject_id=...)`;
they are embedded as functions of the subject id. -/

def HSV_REQUIREMENTS : List String :=
  ["mri/aparc+aseg.mgz",
   "mri/brainmask.mgz",
   "mri/norm.mgz",
   "mri/transforms/talairach.xfm",
   "surf/lh.white",
   "surf/lh.pial",
   "surf/rh.white",
   "surf/rh.pial"]

def UKB_REQUIREMENTS : List String :=
  ["T1/T1_brain.nii.gz", "T1/T1_brain_mask.nii.gz"]

def HCP_REQUIREMENTS : List String :=
  ["T1w/T1w_acpc_dc_restore_brain.nii.gz", "T1w/brainmask_fs.nii.gz"]

def QSIRECON_ANAT_REQUIREMENTS (subject_id : String) : List String :=
  ["sub-" ++ subject_id ++ "/anat/sub-" ++ subject_id ++ "_desc-brain_mask.nii.gz",
   "sub-" ++ subject_id ++ "/anat/sub-" ++ subject_id ++ "_desc-preproc_T1w.nii.gz"]

def QSIRECON_NORMALIZED_ANAT_REQUIREMENTS (subject_id : String) : List String :=
  ["sub-" ++ subject_id ++ "/anat/sub-" ++ subject_id ++
     "_from-T1w_to-MNI152NLin2009cAsym_mode-image_xfm.h5",
   "sub-" ++ subject_id ++ "/anat/sub-" ++ subject_id ++
     "_from-MNI152NLin2009cAsym_to-T1w_mode-image_xfm.h5"]

/-! ### File-existence probes (`anatomical.py` lines 347-431)

A filesystem is the list of paths that exist.  Python `Path.endswith` on the
basename is modelled by a suffix test on the whole path string (equivalent,
since `".gz"` contains no path separator). -/

/-- Python `str.endswith`, via character lists. -/
def strEndsWith (s suf : String) : Bool :=
  suf.data.isSuffixOf s.data

/-- One fuel-indexed step list of Python `str.replace` on character lists:
replace every non-overlapping occurrence of `p` by `rep`, scanning left to
right.  The fuel (the length of the scanned list) makes the recursion
structural, so that concrete instances evaluate inside the kernel.  For the
empty pattern it is the identity; the source only ever replaces the fixed
non-empty pattern `"_T1w"`. -/
def replaceFuel (p rep : List Char) : Nat → List Char → List Char
  | 0, s => s
  | _ + 1, [] => []
  | n + 1, c :: rest =>
    if p.isPrefixOf (c :: rest) && !p.isEmpty then
      rep ++ replaceFuel p rep n ((c :: rest).drop p.length)
    else
      c :: replaceFuel p rep n rest

/-- Python `str.replace`, via character lists. -/
def strReplace (s pattern replacement : String) : String :=
  ⟨replaceFuel pattern.data replacement.data s.data.length s.data⟩

/-- Embedding of `check_hsv_inputs`: FreeSurfer files required for the HSV
5tt image that do not exist under the subject FreeSurfer directory. -/
def check_hsv_inputs (fsys : List String) (subj_fs_path : String) : List String :=
  HSV_REQUIREMENTS.filter (fun requirement =>
    !(fsys.contains (subj_fs_path ++ "/" ++ requirement)))

/-- Embedding of `_check_zipped_unzipped`: a path passes the probe when it
exists, or when it names a `.gz` file and the un-gzipped variant (the path
with the trailing three characters removed) exists. -/
def _check_zipped_unzipped (fsys : List String) (path_to_check : String) : Bool :=
  fsys.contains path_to_check ||
    (strEndsWith path_to_check ".gz" &&
      fsys.contains (path_to_check.dropRight 3))

/-- Embedding of `check_qsiprep_anatomical_outputs`: the required relative
paths (T1w set or transform set, chosen by `anat_type`) that pass neither the
direct probe nor the T2w-substituted probe, reported as full paths. -/
def check_qsiprep_anatomical_outputs (fsys : List String)
    (recon_input_dir subject_id anat_type : String) : List String :=
  let to_check :=
    if anat_type == "T1w" then QSIRECON_ANAT_REQUIREMENTS subject_id
    else QSIRECON_NORMALIZED_ANAT_REQUIREMENTS subject_id
  (to_check.filter (fun requirement =>
      !(_check_zipped_unzipped fsys (recon_input_dir ++ "/" ++ requirement)) &&
      !(_check_zipped_unzipped fsys
          (recon_input_dir ++ "/" ++ (strReplace requirement "_T1w" "_T2w"))))).map
    (fun requirement => recon_input_dir ++ "/" ++ requirement)

/-- Embedding of `check_ukb_anatomical_outputs`: missing UKB requirements,
reported as the relative requirement strings, with a plain existence test
(no gzip fallback, no T2w substitution). -/
def check_ukb_anatomical_outputs (fsys : List String)
    (recon_input_dir : String) : List String :=
  UKB_REQUIREMENTS.filter (fun requirement =>
    !(fsys.contains (recon_input_dir ++ "/" ++ requirement)))

/-- Embedding of `check_hcp_anatomical_outputs`: missing HCP requirements,
reported as the relative requirement strings, with a plain existence test
(no gzip fallback, no T2w substitution). -/
def check_hcp_anatomical_outputs (fsys : List String)
    (recon_input_dir : String) : List String :=
  HCP_REQUIREMENTS.filter (fun requirement =>
    !(fsys.contains (recon_input_dir ++ "/" ++ requirement)))

/-! ### Status records -/

/-- Status dictionary produced by the `gather_*_anatomical_data` functions
and updated by `init_highres_recon_anatomical_wf`. -/
structure AnatStatus where
  has_qsiprep_5tt_hsvs : Bool
  has_freesurfer_5tt_hsvs : Bool
  has_freesurfer : Bool
  has_qsiprep_t1w : Bool
  has_qsiprep_t1w_transforms : Bool
deriving DecidableEq, Repr

/-- Status dictionary returned by `_get_status` inside
`init_dwi_recon_anatomical_workflow` (four keys only). -/
structure ReconStatus where
  has_qsiprep_5tt_hsvs : Bool
  has_freesurfer_5tt_hsvs : Bool
  has_qsiprep_t1w : Bool
  has_qsiprep_t1w_transforms : Bool
deriving DecidableEq, Repr

/-- Embedding of `gather_qsiprep_anatomical_data`: probes the QSIPrep
derivatives for T1w anatomicals and template transforms and returns the
ingress node name together with the status record. -/
def gather_qsiprep_anatomical_data (fsys : List String)
    (recon_input_dir subject_id : String) : String × AnatStatus :=
  let missing_qsiprep_anats :=
    check_qsiprep_anatomical_outputs fsys recon_input_dir subject_id "T1w"
  let missing_qsiprep_transforms :=
    check_qsiprep_anatomical_outputs fsys recon_input_dir subject_id "transforms"
  ("qsiprep_anat_ingress",
   { has_qsiprep_5tt_hsvs := false,
     has_freesurfer_5tt_hsvs := false,
     has_freesurfer := false,
     has_qsiprep_t1w := missing_qsiprep_anats.isEmpty,
     has_qsiprep_t1w_transforms := missing_qsiprep_transforms.isEmpty })

/-- Embedding of `gather_ukb_anatomical_data`: UKB transforms are never
usable (`has_qsiprep_t1w_transforms` is always `false`). -/
def gather_ukb_anatomical_data (fsys : List String)
    (recon_input_dir subject_id : String) : String × AnatStatus :=
  let missing_ukb_anats := check_ukb_anatomical_outputs fsys recon_input_dir
  ("ukb_anat_ingress",
   { has_qsiprep_5tt_hsvs := false,
     has_freesurfer_5tt_hsvs := false,
     has_freesurfer := false,
     has_qsiprep_t1w := missing_ukb_anats.isEmpty,
     has_qsiprep_t1w_transforms := false })

/-- Embedding of `gather_hcp_anatomical_data`: HCP transforms are never
usable (`has_qsiprep_t1w_transforms` is always `false`). -/
def gather_hcp_anatomical_data (fsys : List String)
    (recon_input_dir subject_id : String) : String × AnatStatus :=
  let missing_hcp_anats := check_hcp_anatomical_outputs fsys recon_input_dir
  ("hcp_anat_ingress",
   { has_qsiprep_5tt_hsvs := false,
     has_freesurfer_5tt_hsvs := false,
     has_freesurfer := false,
     has_qsiprep_t1w := missing_hcp_anats.isEmpty,
     has_qsiprep_t1w_transforms := false })

/-- Dispatch on `config.workflow.recon_input_pipeline`
(`anatomical.py` lines 90-97); an unknown pipeline source raises. -/
def gather_anatomical_data (fsys : List String)
    (pipeline_source recon_input_dir subject_id : String) :
    Except String (String × AnatStatus) :=
  if pipeline_source == "qsiprep" then
    Except.ok (gather_qsiprep_anatomical_data fsys recon_input_dir subject_id)
  else if pipeline_source == "ukb" then
    Except.ok (gather_ukb_anatomical_data fsys recon_input_dir subject_id)
  else if pipeline_source == "hcpya" then
    Except.ok (gather_hcp_anatomical_data fsys recon_input_dir subject_id)
  else
    Except.error ("Unknown pipeline source " ++ pipeline_source)

/-! ### Field router (`anatomical.py` lines 546-567)

`connect_from_inputnode` starts as `set(recon_workflow_input_fields)` and
`connect_from_buffernode` starts empty; `_exchange_fields` moves names from
the first set into the second. -/

/-- The two field-ownership sets of the field router. -/
structure FieldSets where
  connect_from_inputnode : List String
  connect_from_buffernode : List String
deriving DecidableEq, Repr

/-- Embedding of the closure `_exchange_fields`:
`connect_from_inputnode.difference_update(fields)` followed by
`connect_from_buffernode.update(fields)`. -/
def _exchange_fields (s : FieldSets) (fields : List String) : FieldSets :=
  { connect_from_inputnode :=
      s.connect_from_inputnode.filter (fun f => !(fields.contains f)),
    connect_from_buffernode :=
      fields.foldl setInsert s.connect_from_buffernode }

/-- Embedding of the closure `_get_source_node`: the node a field is wired
from, an error when the field is in neither set. -/
def _get_source_node (s : FieldSets) (fieldname : String) : Except String String :=
  if s.connect_from_inputnode.contains fieldname then Except.ok "inputnode"
  else if s.connect_from_buffernode.contains fieldname then Except.ok "buffernode"
  else Except.error ("Cannot determine location of " ++ fieldname)

theorem mem_exchange_inputnode (s : FieldSets) (fields : List String) (f : String) :
    f ∈ (_exchange_fields s fields).connect_from_inputnode ↔
      f ∈ s.connect_from_inputnode ∧ f ∉ fields := by
  unfold _exchange_fields
  simp [List.mem_filter]

theorem mem_exchange_buffernode (s : FieldSets) (fields : List String) (f : String) :
    f ∈ (_exchange_fields s fields).connect_from_buffernode ↔
      f ∈ s.connect_from_buffernode ∨ f ∈ fields := by
  unfold _exchange_fields
  simp [mem_foldl_setInsert]

/-- Disjointness invariant of the field router: no field is owned by both
sets. -/
def FieldSets.Disjoint (s : FieldSets) : Prop :=
  ∀ f, f ∈ s.connect_from_inputnode → f ∉ s.connect_from_buffernode

/-- Coverage invariant of the field router: every downstream field is owned
by at least one set. -/
def FieldSets.Covers (s : FieldSets) (fields : List String) : Prop :=
  ∀ f, f ∈ fields → f ∈ s.connect_from_inputnode ∨ f ∈ s.connect_from_buffernode

theorem disjoint_exchange (s : FieldSets) (fields : List String)
    (h : s.Disjoint) : (_exchange_fields s fields).Disjoint := by
  intro f hin hbuf
  rw [mem_exchange_inputnode] at hin
  rw [mem_exchange_buffernode] at hbuf
  rcases hbuf with hbuf | hbuf
  · exact h f hin.1 hbuf
  · exact hin.2 hbuf

theorem covers_exchange (s : FieldSets) (fields l : List String)
    (h : s.Covers l) : (_exchange_fields s fields).Covers l := by
  intro f hf
  rcases h f hf with hin | hbuf
  · by_cases hm : f ∈ fields
    · right
      rw [mem_exchange_buffernode]
      exact Or.inr hm
    · left
      rw [mem_exchange_inputnode]
      exact ⟨hin, hm⟩
  · right
    rw [mem_exchange_buffernode]
    exact Or.inl hbuf

/-! ### Edge families of `init_dwi_recon_anatomical_workflow`

Each definition below transcribes one `workflow.connect` block of the source,
in source order. -/

/-- Template/reference-grid wiring (`anatomical.py` lines 601-610), present on
every path through the workflow. -/
def templateEdges : List Edge :=
  [⟨"get_template", "template_file", "mask_template", "in_file_a"⟩,
   ⟨"get_template", "mask_file", "mask_template", "in_file_b"⟩,
   ⟨"mask_template", "out_file", "reorient_to_lps", "in_file"⟩,
   ⟨"inputnode", "dwi_ref", "reference_grid_wf", "inputnode.input_image"⟩,
   ⟨"reorient_to_lps", "out_file", "reference_grid_wf", "inputnode.template_image"⟩,
   ⟨"reference_grid_wf", "outputnode.grid_image", "buffernode", "resampling_template"⟩]

/-- The b0-extraction-and-mask branch (`anatomical.py` lines 620-625):
`ExtractB0s` feeding an AFNI automask whose output becomes `dwi_mask`. -/
def b0MaskEdges : List Edge :=
  [⟨"inputnode", "dwi_file", "extract_b0s", "dwi_series"⟩,
   ⟨"inputnode", "bval_file", "extract_b0s", "bval_file"⟩,
   ⟨"extract_b0s", "b0_series", "mask_b0s", "in_file"⟩,
   ⟨"mask_b0s", "out_file", "outputnode", "dwi_mask"⟩]

/-- FreeSurfer-to-DWI registration wiring (`anatomical.py` lines 662-676);
the nested `register_fs_to_qsiprep_wf` workflow is modelled as a single node
with dotted ports, exactly as the `connect` statements name them. -/
def fsRegistrationEdges (fs_files_to_register : List String) : List Edge :=
  [⟨"inputnode", "subject_id", "fs_source", "subject_id"⟩,
   ⟨"inputnode", "dwi_ref", "register_fs_to_qsiprep_wf", "inputnode.qsiprep_reference_image"⟩]
  ++ fs_files_to_register.map
      (fun field => ⟨"fs_source", field, "register_fs_to_qsiprep_wf", "inputnode." ++ field⟩)
  ++ [⟨"register_fs_to_qsiprep_wf", "outputnode.brain", "buffernode", "t1_preproc"⟩,
      ⟨"register_fs_to_qsiprep_wf", "outputnode.aseg", "buffernode", "t1_brain_mask"⟩,
      ⟨"register_fs_to_qsiprep_wf", "outputnode.fs_to_qsiprep_transform_mrtrix",
        "buffernode", "fs_to_qsiprep_transform_mrtrix"⟩,
      ⟨"register_fs_to_qsiprep_wf", "outputnode.fs_to_qsiprep_transform_itk",
        "buffernode", "fs_to_qsiprep_transform_itk"⟩]
  ++ fs_files_to_register.map
      (fun field => ⟨"register_fs_to_qsiprep_wf", "outputnode." ++ field, "buffernode", field⟩)

/-- Wiring of the fsnative-to-DWI 5tt transform (`anatomical.py` lines
697-702). -/
def hsvs5ttEdges : List Edge :=
  [⟨"inputnode", "fs_5tt_hsvs", "apply_header_to_5tt_hsvs", "in_image"⟩,
   ⟨"apply_header_to_5tt_hsvs", "out_image", "buffernode", "qsiprep_5tt_hsvs"⟩,
   ⟨"apply_header_to_5tt_hsvs", "out_image", "ds_qsiprep_5tt_hsvs", "in_file"⟩]

/-- T1w-brain-mask resampling wiring (`anatomical.py` lines 758-763): the
`resample_mask` node resamples the anatomical mask into DWI space. -/
def resampleMaskEdges : List Edge :=
  [⟨"inputnode", "t1_brain_mask", "resample_mask", "input_image"⟩,
   ⟨"inputnode", "dwi_ref", "resample_mask", "reference_image"⟩,
   ⟨"resample_mask", "output_image", "buffernode", "dwi_mask"⟩]

/-- ODF-ROI warping wiring (`anatomical.py` lines 773-779); `srcNode` is the
node returned by `_get_source_node` for `t1_2_mni_reverse_transform`. -/
def odfRoisEdges (srcNode : String) : List Edge :=
  [⟨srcNode, "t1_2_mni_reverse_transform", "odf_rois", "transforms"⟩,
   ⟨"inputnode", "dwi_file", "odf_rois", "reference_image"⟩,
   ⟨"odf_rois", "output_image", "buffernode", "odf_rois"⟩]

/-- The four per-atlas datasink connections (`anatomical.py` lines 803-866);
the tuple-with-function source ports are modelled by their field name
`atlas_configs`. -/
def atlasSinkEdges (atlas : String) : List Edge :=
  [⟨"get_atlases", "atlas_configs", "ds_atlas_" ++ atlas, "in_file"⟩,
   ⟨"get_atlases", "atlas_configs", "ds_atlas_mifs_" ++ atlas, "in_file"⟩,
   ⟨"get_atlases", "atlas_configs", "ds_atlas_mrtrix_lut_" ++ atlas, "in_file"⟩,
   ⟨"get_atlases", "atlas_configs", "ds_atlas_orig_lut_" ++ atlas, "in_file"⟩]

/-- The source-file fill-in loop over `ds_atlas_*` nodes (`anatomical.py`
lines 869-874). -/
def dsAtlasSourceEdges (atlas : String) : List Edge :=
  [⟨"inputnode", "dwi_file", "ds_atlas_" ++ atlas, "source_file"⟩,
   ⟨"inputnode", "dwi_file", "ds_atlas_mifs_" ++ atlas, "source_file"⟩,
   ⟨"inputnode", "dwi_file", "ds_atlas_mrtrix_lut_" ++ atlas, "source_file"⟩,
   ⟨"inputnode", "dwi_file", "ds_atlas_orig_lut_" ++ atlas, "source_file"⟩]

/-- Atlas wiring inside the `has_qsiprep_t1w_transforms` branch
(`anatomical.py` lines 782-874). -/
def atlasEdges (srcNode : String) (atlas_names : List String) : List Edge :=
  (if atlas_names.isEmpty then []
   else
     [⟨srcNode, "t1_2_mni_reverse_transform", "get_atlases", "forward_transform"⟩,
      ⟨"get_atlases", "atlas_configs", "buffernode", "atlas_configs"⟩,
      ⟨"inputnode", "dwi_file", "get_atlases", "reference_image"⟩])
  ++ atlas_names.flatMap atlasSinkEdges
  ++ atlas_names.flatMap dsAtlasSourceEdges

/-- Final passthrough wiring from the raw input node
(`anatomical.py` line 626 and line 881). -/
def passthroughInput (l : List String) : List Edge :=
  l.map (fun f => ⟨"inputnode", f, "outputnode", f⟩)

/-- Final wiring of locally computed fields (`anatomical.py` line 882). -/
def passthroughBuffer (l : List String) : List Edge :=
  l.map (fun f => ⟨"buffernode", f, "outputnode", f⟩)

/-! ### `init_dwi_recon_anatomical_workflow` (`anatomical.py` lines 513-885)

The field-ownership sets evolve through at most three `_exchange_fields`
calls; the three stages are named so theorems can refer to them. -/

/-- Stage 1 of the ownership sets: the unconditional exchange of
`anatomical.py` line 567 applied to the initial sets of lines 546-551. -/
def dwiSets1 (recon_workflow_input_fields : List String) : FieldSets :=
  _exchange_fields ⟨pySet recon_workflow_input_fields, []⟩
    ["dwi_mask", "atlas_configs", "odf_rois", "resampling_template"]

/-- Stage 2 of the ownership sets: the FreeSurfer-registration exchange of
`anatomical.py` lines 646-654, taken only on that branch. -/
def dwiSets2 (recon_workflow_input_fields fs_files_to_register : List String)
    (fsBranch : Bool) : FieldSets :=
  if fsBranch then
    _exchange_fields (dwiSets1 recon_workflow_input_fields)
      (fs_files_to_register ++
        ["t1_brain_mask", "t1_preproc",
         "fs_to_qsiprep_transform_mrtrix", "fs_to_qsiprep_transform_itk"])
  else dwiSets1 recon_workflow_input_fields

/-- Stage 3 of the ownership sets: the `qsiprep_5tt_hsvs` exchange of
`anatomical.py` line 684, taken only when the 5tt transform branch runs. -/
def dwiSets3 (recon_workflow_input_fields fs_files_to_register : List String)
    (fsBranch do5tt : Bool) : FieldSets :=
  if do5tt then
    _exchange_fields (dwiSets2 recon_workflow_input_fields fs_files_to_register fsBranch)
      ["qsiprep_5tt_hsvs"]
  else dwiSets2 recon_workflow_input_fields fs_files_to_register fsBranch

/-- Result of `init_dwi_recon_anatomical_workflow`: the graph, the status
record from `_get_status`, and the final ownership sets of the field
router. -/
structure DwiAnatResult where
  wf : Wf
  status : ReconStatus
  connect_from_inputnode : List String
  connect_from_buffernode : List String
deriving DecidableEq, Repr

/-- Common tail of `init_dwi_recon_anatomical_workflow`
(`anatomical.py` lines 876-885): the (misspelled) `"mrtrix_5tt_hsv"` check,
then the final wiring of every field from whichever set owns it. -/
def dwiFinish (extras_to_make : List String) (has_qsiprep_5tt_hsvs : Bool)
    (edges : List Edge) (sets : FieldSets) (status : ReconStatus) :
    Except String DwiAnatResult :=
  if extras_to_make.contains "mrtrix_5tt_hsv" && !has_qsiprep_5tt_hsvs then
    Except.error "Unable to create a 5tt HSV image given input data."
  else
    Except.ok
      { wf := ⟨[], edges ++ passthroughInput sets.connect_from_inputnode
                 ++ passthroughBuffer sets.connect_from_buffernode⟩,
        status := status,
        connect_from_inputnode := sets.connect_from_inputnode,
        connect_from_buffernode := sets.connect_from_buffernode }

/-- The `has_qsiprep_t1w_transforms` block of
`init_dwi_recon_anatomical_workflow` (`anatomical.py` lines 765-874)
followed by the common tail: when transforms are available, the ODF-ROI and
atlas wiring is added, with the transform source node looked up through
`_get_source_node`. -/
def dwiAtlasStage (extras_to_make : List String) (has_qsiprep_5tt_hsvs : Bool)
    (atlas_names : List String) (has_qsiprep_t1w_transforms : Bool)
    (edges3 : List Edge) (sets3 : FieldSets) (status : ReconStatus) :
    Except String DwiAnatResult :=
  if has_qsiprep_t1w_transforms then
    match _get_source_node sets3 "t1_2_mni_reverse_transform" with
    | Except.error e => Except.error e
    | Except.ok srcNode =>
      dwiFinish extras_to_make has_qsiprep_5tt_hsvs
        (edges3 ++ odfRoisEdges srcNode ++ atlasEdges srcNode atlas_names)
        sets3 status
  else
    dwiFinish extras_to_make has_qsiprep_5tt_hsvs edges3 sets3 status

/-- Embedding of `init_dwi_recon_anatomical_workflow`.  The `name` argument
of the source (used only to name the returned workflow object) is omitted;
the two field lists imported from `interchange.py` are explicit
parameters. -/
def init_dwi_recon_anatomical_workflow
    (recon_workflow_input_fields fs_files_to_register : List String)
    (atlas_names : List String)
    (has_qsiprep_5tt_hsvs needs_t1w_transform has_freesurfer_5tt_hsvs
     has_qsiprep_t1w has_qsiprep_t1w_transforms has_freesurfer : Bool)
    (extras_to_make : List String)
    (prefer_dwi_mask : Bool) : Except String DwiAnatResult :=
  let sets1 := dwiSets1 recon_workflow_input_fields
  if !(has_qsiprep_t1w || has_freesurfer) || prefer_dwi_mask then
    -- Missing Freesurfer AND QSIRecon T1ws, or the user wants a DWI-based
    -- mask: estimate the mask from the b=0 volumes and return early.
    Except.ok
      { wf := ⟨[], templateEdges ++ b0MaskEdges
                 ++ passthroughInput sets1.connect_from_inputnode⟩,
        status := ⟨has_qsiprep_5tt_hsvs, has_freesurfer_5tt_hsvs,
                   has_qsiprep_t1w, has_qsiprep_t1w_transforms⟩,
        connect_from_inputnode := sets1.connect_from_inputnode,
        connect_from_buffernode := sets1.connect_from_buffernode }
  else
    let fsBranch := has_freesurfer && !has_qsiprep_t1w
    let has_qsiprep_t1w2 := has_qsiprep_t1w || fsBranch
    let edges1 := templateEdges ++
      (if fsBranch then fsRegistrationEdges fs_files_to_register else [])
    let do5tt := extras_to_make.contains "mrtrix_5tt_hsvs" && !has_qsiprep_5tt_hsvs
    let sets3 := dwiSets3 recon_workflow_input_fields fs_files_to_register fsBranch do5tt
    if do5tt && !has_freesurfer_5tt_hsvs then
      Except.error "The 5tt image in fsnative should have been created by now"
    else
      let edges2 := edges1 ++ (if do5tt then hsvs5ttEdges else [])
      if needs_t1w_transform && !has_qsiprep_t1w_transforms then
        Except.error
          "Reconstruction workflow requires a T1wACPC-to-template transform. None were found."
      else
        let edges3 := edges2 ++
          (if has_qsiprep_t1w2 && !prefer_dwi_mask then resampleMaskEdges else [])
        let status : ReconStatus :=
          ⟨has_qsiprep_5tt_hsvs, has_freesurfer_5tt_hsvs,
           has_qsiprep_t1w2, has_qsiprep_t1w_transforms⟩
        dwiAtlasStage extras_to_make has_qsiprep_5tt_hsvs atlas_names
          has_qsiprep_t1w_transforms edges3 sets3 status

/-! ### `init_highres_recon_anatomical_wf` (`anatomical.py` lines 65-221)

`find_fs_path` (from `qsirecon/interfaces/freesurfer.py`, not among the
sources) is abstracted as the `subject_freesurfer_path : Option String`
argument, its result for the call at line 104. -/

/-- Wiring of the HSVS 5tt creation (`anatomical.py` lines 182-187). -/
def highres5ttEdges (anat_ingress_node : String) : List Edge :=
  [⟨anat_ingress_node, "t1_preproc", "ds_fs_5tt_hsvs", "source_file"⟩,
   ⟨anat_ingress_node, "t1_preproc", "ds_qsiprep_5tt_hsvs", "source_file"⟩,
   ⟨"create_5tt_hsvs", "out_file", "outputnode", "fs_5tt_hsvs"⟩,
   ⟨"create_5tt_hsvs", "out_file", "ds_fs_5tt_hsvs", "in_file"⟩]

/-- Wiring of the FreeSurfer-to-QSIPrep registration of the 5tt image
(`anatomical.py` lines 199-217); the nested `register_fs_to_qsiprep_wf`
workflow is modelled as one node with dotted ports. -/
def highres5ttRegistrationEdges (anat_ingress_node : String)
    (fs_files_to_register : List String) : List Edge :=
  [⟨anat_ingress_node, "t1_preproc", "register_fs_to_qsiprep_wf",
     "inputnode.qsiprep_reference_image"⟩,
   ⟨anat_ingress_node, "t1_brain_mask", "register_fs_to_qsiprep_wf",
     "inputnode.qsiprep_reference_mask"⟩]
  ++ fs_files_to_register.map
      (fun field => ⟨"fs_source", field, "register_fs_to_qsiprep_wf", "inputnode." ++ field⟩)
  ++ [⟨"register_fs_to_qsiprep_wf", "outputnode.fs_to_qsiprep_transform_mrtrix",
        "outputnode", "fs_to_qsiprep_transform_mrtrix"⟩,
      ⟨"register_fs_to_qsiprep_wf", "outputnode.fs_to_qsiprep_transform_itk",
        "outputnode", "fs_to_qsiprep_transform_itk"⟩]
  ++ fs_files_to_register.map
      (fun field => ⟨"register_fs_to_qsiprep_wf", "outputnode." ++ field, "outputnode", field⟩)
  ++ [⟨"create_5tt_hsvs", "out_file", "apply_header_to_5tt", "in_image"⟩,
      ⟨"register_fs_to_qsiprep_wf", "outputnode.fs_to_qsiprep_transform_mrtrix",
        "apply_header_to_5tt", "transform_file"⟩,
      ⟨"apply_header_to_5tt", "out_image", "outputnode", "qsiprep_5tt_hsvs"⟩,
      ⟨"apply_header_to_5tt", "out_image", "ds_qsiprep_5tt_hsvs", "in_file"⟩]

/-- Embedding of `init_highres_recon_anatomical_wf`.  In the source, calling
`check_hsv_inputs(Path(subject_freesurfer_path))` with a `None` path raises a
`TypeError` from the `Path` constructor; that exception is modelled as an
error result like any other. -/
def init_highres_recon_anatomical_wf (fsys : List String)
    (pipeline_source bids_dir subject_id : String)
    (subject_freesurfer_path : Option String)
    (qsiprep_highres_anatomical_ingressed_fields fs_files_to_register : List String)
    (extras_to_make : List String) (needs_t1w_transform : Bool) :
    Except String (Wf × AnatStatus) :=
  match gather_anatomical_data fsys pipeline_source bids_dir subject_id with
  | Except.error e => Except.error e
  | Except.ok (anat_ingress_node, status0) =>
    if needs_t1w_transform && !status0.has_qsiprep_t1w_transforms then
      Except.error "Cannot compute to-template"
    else
      let status := { status0 with has_freesurfer := subject_freesurfer_path.isSome }
      if !status.has_qsiprep_t1w && subject_freesurfer_path.isNone then
        if extras_to_make.contains "mrtrix_5tt_hsvs" then
          Except.error "FreeSurfer data is required to make HSVS 5tt image."
        else
          Except.ok (⟨["outputnode"], []⟩, status)
      else
        let edges0 := qsiprep_highres_anatomical_ingressed_fields.map
          (fun name => Edge.mk anat_ingress_node name "outputnode" name)
        if extras_to_make.contains "mrtrix_5tt_hsvs" then
          match subject_freesurfer_path with
          | none =>
            Except.error "TypeError: argument should be a str or an os.PathLike object"
          | some fs_path =>
            let missing_fs_hsvs_files := check_hsv_inputs fsys fs_path
            if !missing_fs_hsvs_files.isEmpty then
              Except.error (String.intercalate " " missing_fs_hsvs_files
                ++ "are missing: unable to make a HSV.")
            else
              let status1 := { status with has_freesurfer_5tt_hsvs := true }
              let edges1 := edges0 ++ highres5ttEdges anat_ingress_node
              if status1.has_qsiprep_t1w then
                Except.ok
                  (⟨[], edges1 ++ highres5ttRegistrationEdges anat_ingress_node
                          fs_files_to_register⟩,
                   { status1 with has_qsiprep_5tt_hsvs := true })
              else
                Except.ok (⟨[], edges1⟩, status1)
        else
          Except.ok (⟨[], edges0⟩, status)

/-! ### Result extractors

Helpers reading components out of an `Except`-valued construction result;
on an error they return inert defaults, so that theorems about constructed
graphs can be stated without binding the success value. -/

/-- Whether construction succeeded (no exception was raised). -/
def exOk {ε α : Type} (e : Except ε α) : Bool :=
  match e with
  | Except.ok _ => true
  | Except.error _ => false

/-- Graph of a successful DWI-anatomical construction. -/
def okWf (e : Except String DwiAnatResult) : Wf :=
  match e with
  | Except.ok r => r.wf
  | Except.error _ => ⟨[], []⟩

/-- Status record of a successful DWI-anatomical construction. -/
def okStatus (e : Except String DwiAnatResult) : ReconStatus :=
  match e with
  | Except.ok r => r.status
  | Except.error _ => ⟨false, false, false, false⟩

/-- Final input-sourced field set of a successful construction. -/
def okInput (e : Except String DwiAnatResult) : List String :=
  match e with
  | Except.ok r => r.connect_from_inputnode
  | Except.error _ => []

/-- Final locally-computed field set of a successful construction. -/
def okBuf (e : Except String DwiAnatResult) : List String :=
  match e with
  | Except.ok r => r.connect_from_buffernode
  | Except.error _ => []

/-- Boolean disjointness of two field lists. -/
def listDisjoint (a b : List String) : Bool :=
  a.all (fun f => !(b.contains f))

theorem listDisjoint_eq_true (a b : List String) :
    listDisjoint a b = true ↔ ∀ f ∈ a, f ∉ b := by
  simp [listDisjoint, List.all_eq_true]

/-! ### Structural lemmas about `init_dwi_recon_anatomical_workflow` -/

/-- An edge list contains no direct raw-input-to-output passthrough edge. -/
def NoInOut (E : List Edge) : Prop :=
  ∀ f : String, Edge.mk "inputnode" f "outputnode" f ∉ E

theorem noInOut_nil : NoInOut [] := by
  intro f hf
  simp at hf

theorem noInOut_append {A B : List Edge} (ha : NoInOut A) (hb : NoInOut B) :
    NoInOut (A ++ B) := by
  intro f hf
  rcases List.mem_append.mp hf with h | h
  · exact ha f h
  · exact hb f h

theorem noInOut_ite {A : List Edge} (c : Bool) (ha : NoInOut A) :
    NoInOut (if c then A else []) := by
  cases c
  · simpa using noInOut_nil
  · simpa using ha

theorem noInOut_templateEdges : NoInOut templateEdges := by
  intro f hf
  simp [templateEdges] at hf

theorem noInOut_b0MaskEdges : NoInOut b0MaskEdges := by
  intro f hf
  simp [b0MaskEdges] at hf

theorem noInOut_fsRegistrationEdges (l : List String) :
    NoInOut (fsRegistrationEdges l) := by
  intro f hf
  simp [fsRegistrationEdges] at hf

theorem noInOut_hsvs5ttEdges : NoInOut hsvs5ttEdges := by
  intro f hf
  simp [hsvs5ttEdges] at hf

theorem noInOut_resampleMaskEdges : NoInOut resampleMaskEdges := by
  intro f hf
  simp [resampleMaskEdges] at hf

theorem noInOut_odfRoisEdges (n : String) : NoInOut (odfRoisEdges n) := by
  intro f hf
  simp [odfRoisEdges] at hf

theorem noInOut_atlasEdges (n : String) (l : List String) :
    NoInOut (atlasEdges n l) := by
  intro f hf
  simp [atlasEdges, atlasSinkEdges, dsAtlasSourceEdges] at hf
  obtain ⟨a, -, hf⟩ := hf
  rcases hf with ⟨h1, -, h2⟩ | ⟨h1, -, h2⟩ | ⟨h1, -, h2⟩ | ⟨h1, -, h2⟩ <;>
    subst h1 <;> simp at h2

/-- Membership characterization of the raw-input passthrough edges. -/
theorem mem_passthroughInput (l : List String) (e : Edge) :
    e ∈ passthroughInput l ↔
      ∃ f ∈ l, e = Edge.mk "inputnode" f "outputnode" f := by
  simp [passthroughInput, eq_comm]

/-- Membership characterization of the buffer passthrough edges. -/
theorem mem_passthroughBuffer (l : List String) (e : Edge) :
    e ∈ passthroughBuffer l ↔
      ∃ f ∈ l, e = Edge.mk "buffernode" f "outputnode" f := by
  simp [passthroughBuffer, eq_comm]

theorem dwiSets1_disjoint (flds : List String) : (dwiSets1 flds).Disjoint := by
  apply disjoint_exchange
  intro f hin hbuf
  simp at hbuf

theorem dwiSets1_covers (flds : List String) : (dwiSets1 flds).Covers flds := by
  apply covers_exchange
  intro f hf
  left
  simpa [mem_pySet] using hf

theorem dwiSets3_disjoint (flds fsF : List String) (b1 b2 : Bool) :
    (dwiSets3 flds fsF b1 b2).Disjoint := by
  unfold dwiSets3 dwiSets2
  have h1 := dwiSets1_disjoint flds
  cases b2 <;> cases b1 <;>
    simp only [if_true, if_false, Bool.false_eq_true, reduceIte] <;>
    first
      | exact h1
      | exact disjoint_exchange _ _ h1
      | exact disjoint_exchange _ _ (disjoint_exchange _ _ h1)

theorem dwiSets3_covers (flds fsF : List String) (b1 b2 : Bool) :
    (dwiSets3 flds fsF b1 b2).Covers flds := by
  unfold dwiSets3 dwiSets2
  have h1 := dwiSets1_covers flds
  cases b2 <;> cases b1 <;>
    simp only [if_true, if_false, Bool.false_eq_true, reduceIte] <;>
    first
      | exact h1
      | exact covers_exchange _ _ _ h1
      | exact covers_exchange _ _ _ (covers_exchange _ _ _ h1)

/-- Characterization of a successful `dwiFinish`. -/
theorem dwiFinish_ok (extras : List String) (h5 : Bool) (E : List Edge)
    (s : FieldSets) (st : ReconStatus) (r : DwiAnatResult)
    (h : dwiFinish extras h5 E s st = Except.ok r) :
    r = ⟨⟨[], E ++ passthroughInput s.connect_from_inputnode
            ++ passthroughBuffer s.connect_from_buffernode⟩,
         st, s.connect_from_inputnode, s.connect_from_buffernode⟩ := by
  unfold dwiFinish at h
  split at h
  · simp at h
  · injection h with h
    exact h.symm

theorem noInOut_iteProp {A : List Edge} (c : Prop) [Decidable c] (ha : NoInOut A) :
    NoInOut (if c then A else []) := by
  split
  · exact ha
  · exact noInOut_nil

/-- Characterization of a successful `dwiAtlasStage`: the result is the
final wiring over the given sets, on top of either the incoming edges or
those edges extended with the ODF-ROI and atlas wiring. -/
theorem dwiAtlasStage_ok (extras : List String) (h5 : Bool) (atl : List String)
    (tr : Bool) (E3 : List Edge) (s : FieldSets) (st : ReconStatus)
    (r : DwiAnatResult)
    (h : dwiAtlasStage extras h5 atl tr E3 s st = Except.ok r) :
    ∃ E, (E = E3 ∨ ∃ n, E = E3 ++ odfRoisEdges n ++ atlasEdges n atl) ∧
      r = ⟨⟨[], E ++ passthroughInput s.connect_from_inputnode
              ++ passthroughBuffer s.connect_from_buffernode⟩,
           st, s.connect_from_inputnode, s.connect_from_buffernode⟩ := by
  unfold dwiAtlasStage at h
  split at h
  · split at h
    · simp at h
    · rename_i srcNode heq
      exact ⟨_, Or.inr ⟨srcNode, rfl⟩, dwiFinish_ok _ _ _ _ _ _ h⟩
  · exact ⟨E3, Or.inl rfl, dwiFinish_ok _ _ _ _ _ _ h⟩

/-- Structural shape of every graph returned by
`init_dwi_recon_anatomical_workflow`: the ownership sets of the result are
the stage-1 sets (early b0-mask return) or the stage-3 sets, every field
still owned by the input set is wired straight through to the output node,
and apart from those passthrough edges (and the buffer passthroughs) no
edge runs from the raw input node to the output node. -/
theorem init_dwi_ok_shape
    (flds fsF atl : List String) (h5 nt fs5 t1w tr fs : Bool)
    (extras : List String) (p : Bool) (r : DwiAnatResult)
    (h : init_dwi_recon_anatomical_workflow flds fsF atl h5 nt fs5 t1w tr fs
          extras p = Except.ok r) :
    ∃ E s, (s = dwiSets1 flds ∨ ∃ b1 b2, s = dwiSets3 flds fsF b1 b2) ∧
      r.connect_from_inputnode = s.connect_from_inputnode ∧
      r.connect_from_buffernode = s.connect_from_buffernode ∧
      NoInOut E ∧
      (∀ e, e ∈ passthroughInput s.connect_from_inputnode → e ∈ r.wf.edges) ∧
      (∀ e, e ∈ r.wf.edges → e ∈ E ∨
         e ∈ passthroughInput s.connect_from_inputnode ∨
         e ∈ passthroughBuffer s.connect_from_buffernode) := by
  unfold init_dwi_recon_anatomical_workflow at h
  split at h
  · -- early b0-mask return
    injection h with h
    subst h
    refine ⟨templateEdges ++ b0MaskEdges, dwiSets1 flds, Or.inl rfl, rfl, rfl,
      noInOut_append noInOut_templateEdges noInOut_b0MaskEdges, ?_, ?_⟩
    · intro e he
      simp only [List.mem_append]
      tauto
    · intro e he
      simp only [List.mem_append] at he ⊢
      tauto
  · -- main path
    simp only [] at h
    rw [ite_eq_iff] at h
    rcases h with ⟨-, h⟩ | ⟨-, h⟩
    · simp at h
    · rw [ite_eq_iff] at h
      rcases h with ⟨-, h⟩ | ⟨-, h⟩
      · simp at h
      · obtain ⟨E, hE, hr⟩ := dwiAtlasStage_ok _ _ _ _ _ _ _ _ h
        subst hr
        have hE3 : NoInOut ((templateEdges ++
            (if (fs && !t1w) = true then fsRegistrationEdges fsF else []) ++
            (if (extras.contains "mrtrix_5tt_hsvs" && !h5) = true then hsvs5ttEdges else []) ++
            (if ((t1w || fs && !t1w) && !p) = true then resampleMaskEdges else []))) :=
          noInOut_append
            (noInOut_append
              (noInOut_append noInOut_templateEdges
                (noInOut_iteProp _ (noInOut_fsRegistrationEdges fsF)))
              (noInOut_iteProp _ noInOut_hsvs5ttEdges))
            (noInOut_iteProp _ noInOut_resampleMaskEdges)
        have hEno : NoInOut E := by
          rcases hE with rfl | ⟨n, rfl⟩
          · exact hE3
          · exact noInOut_append (noInOut_append hE3 (noInOut_odfRoisEdges n))
              (noInOut_atlasEdges n atl)
        refine ⟨E, dwiSets3 flds fsF (fs && !t1w)
            (extras.contains "mrtrix_5tt_hsvs" && !h5),
          Or.inr ⟨_, _, rfl⟩, rfl, rfl, hEno, ?_, ?_⟩
        · intro e he
          simp only [List.mem_append]
          tauto
        · intro e he
          simp only [List.mem_append] at he ⊢
          tauto
/-! ### Claim theorems -/

/-- Claim C1: for every call to `init_dwi_recon_anatomical_workflow` with
`prefer_dwi_mask` set to true, construction succeeds and the assembled graph
contains the b0-extraction-and-mask branch (`ExtractB0s` node `extract_b0s`
fed from the DWI inputs, feeding the automask node `mask_b0s`, whose output
becomes `dwi_mask` on the output node) and never contains the T1w-brain-mask
resampling node `resample_mask`, regardless of the values of
`has_qsiprep_t1w` and `has_freesurfer` (and of every other argument). -/
theorem claim_C1_prefer_dwi_mask_forces_b0_branch
    (flds fsF atl : List String) (h5 nt fs5 t1w tr fs : Bool)
    (extras : List String) :
    exOk (init_dwi_recon_anatomical_workflow flds fsF atl h5 nt fs5 t1w tr fs
            extras true) = true ∧
    (okWf (init_dwi_recon_anatomical_workflow flds fsF atl h5 nt fs5 t1w tr fs
            extras true)).edges.contains
        (Edge.mk "inputnode" "dwi_file" "extract_b0s" "dwi_series") = true ∧
    (okWf (init_dwi_recon_anatomical_workflow flds fsF atl h5 nt fs5 t1w tr fs
            extras true)).edges.contains
        (Edge.mk "extract_b0s" "b0_series" "mask_b0s" "in_file") = true ∧
    (okWf (init_dwi_recon_anatomical_workflow flds fsF atl h5 nt fs5 t1w tr fs
            extras true)).edges.contains
        (Edge.mk "mask_b0s" "out_file" "outputnode" "dwi_mask") = true ∧
    (okWf (init_dwi_recon_anatomical_workflow flds fsF atl h5 nt fs5 t1w tr fs
            extras true)).containsNode "resample_mask" = false := by
  have hred : init_dwi_recon_anatomical_workflow flds fsF atl h5 nt fs5 t1w tr fs
      extras true
      = Except.ok
          ⟨⟨[], templateEdges ++ b0MaskEdges ++
              passthroughInput (dwiSets1 flds).connect_from_inputnode⟩,
           ⟨h5, fs5, t1w, tr⟩,
           (dwiSets1 flds).connect_from_inputnode,
           (dwiSets1 flds).connect_from_buffernode⟩ := by
    unfold init_dwi_recon_anatomical_workflow
    simp
  rw [hred]
  refine ⟨rfl, ?_, ?_, ?_, ?_⟩
  · simp [okWf, templateEdges, b0MaskEdges, List.mem_append]
  · simp [okWf, templateEdges, b0MaskEdges, List.mem_append]
  · simp [okWf, templateEdges, b0MaskEdges, List.mem_append]
  · simp only [okWf, Wf.containsNode, List.any_append, passthroughInput, List.any_map]
    have h1 : templateEdges.any
        (fun e => e.srcNode == "resample_mask" || e.dstNode == "resample_mask") = false := by
      decide
    have h2 : b0MaskEdges.any
        (fun e => e.srcNode == "resample_mask" || e.dstNode == "resample_mask") = false := by
      decide
    have h3 : ((dwiSets1 flds).connect_from_inputnode).any
        ((fun e => e.srcNode == "resample_mask" || e.dstNode == "resample_mask") ∘
          (fun f => Edge.mk "inputnode" f "outputnode" f)) = false := by
      rw [List.any_eq_false]
      intro x hx
      simp
    simp [h1, h2, h3]

/-- Claim C2 counterexample: the claim says that whenever a template
transform is required (`needs_t1w_transform = true`) and
`has_qsiprep_t1w_transforms = false`, `init_dwi_recon_anatomical_workflow`
fails for every combination of the remaining flags, including
`prefer_dwi_mask`.  With `prefer_dwi_mask = true` (and
`has_qsiprep_t1w = true`) the function instead returns a graph through the
early b0-mask return, which precedes the transform check. -/
theorem claim_C2_counterexample :
    exOk (init_dwi_recon_anatomical_workflow [] [] [] false true false true
            false false [] true) = true := by
  rfl

/-- Claim C2 (amended): if a template transform is required but the status
record shows no transforms, construction fails with an error: always for
`init_highres_recon_anatomical_wf`, and for
`init_dwi_recon_anatomical_workflow` provided the early-returning b0-mask
branch is not taken (`prefer_dwi_mask = false` and at least one of
`has_qsiprep_t1w` / `has_freesurfer` set). -/
theorem claim_C2_amended_transform_required
    (fsys : List String) (pipeline bids subj : String) (fspath : Option String)
    (ingressed fsF1 extras1 : List String)
    (node : String) (st : AnatStatus)
    (hgather : gather_anatomical_data fsys pipeline bids subj =
      Except.ok (node, st))
    (hst : st.has_qsiprep_t1w_transforms = false)
    (flds fsF2 atl : List String) (h5 fs5 t1w fs : Bool) (extras2 : List String)
    (hcond : (t1w || fs) = true) :
    exOk (init_highres_recon_anatomical_wf fsys pipeline bids subj fspath
            ingressed fsF1 extras1 true) = false ∧
    exOk (init_dwi_recon_anatomical_workflow flds fsF2 atl h5 true fs5 t1w
            false fs extras2 false) = false := by
  constructor
  · unfold init_highres_recon_anatomical_wf
    rw [hgather]
    simp [hst, exOk]
  · unfold init_dwi_recon_anatomical_workflow
    have hearly : (!(t1w || fs) || false) = false := by simp [hcond]
    simp only [hearly, Bool.false_eq_true, if_false]
    split
    · rfl
    · rfl

/-- Claim C3: for every call to `init_highres_recon_anatomical_wf` in which
`extras_to_make` requests the `mrtrix_5tt_hsvs` segmentation and no
FreeSurfer directory exists for the subject (`find_fs_path` returned
`None`), construction fails with an error and returns no graph — hence no
graph node referencing that segmentation is ever created — for every value
of `has_qsiprep_t1w` (the filesystem is universally quantified).  In the
source, the `has_qsiprep_t1w = true` case surfaces as the `TypeError`
raised by `Path(None)` inside `check_hsv_inputs`, still before any node
referencing the segmentation is built. -/
theorem claim_C3_hsvs_without_freesurfer_fails
    (fsys : List String) (pipeline bids subj : String)
    (ingressed fsF extras : List String) (needs : Bool)
    (hreq : extras.contains "mrtrix_5tt_hsvs" = true) :
    exOk (init_highres_recon_anatomical_wf fsys pipeline bids subj none
            ingressed fsF extras needs) = false := by
  unfold init_highres_recon_anatomical_wf
  cases hg : gather_anatomical_data fsys pipeline bids subj with
  | error e => rfl
  | ok pr =>
    obtain ⟨node, st⟩ := pr
    simp only [hreq]
    split
    · rfl
    · split
      · rw [if_pos]
        · rfl
        · simp [hreq]
      · rw [if_pos]
        · rfl
        · simp [hreq]

/-- Witness for claim C2 (amended): a UKB input (whose status never carries
template transforms) and a DWI-recon call with `has_qsiprep_t1w = true`. -/
theorem claim_C2_amended_witness :
    exOk (init_highres_recon_anatomical_wf [] "ukb" "d" "01" none [] [] []
            true) = false ∧
    exOk (init_dwi_recon_anatomical_workflow [] [] [] false true false true
            false false [] false) = false :=
  claim_C2_amended_transform_required [] "ukb" "d" "01" none [] [] []
    "ukb_anat_ingress" ⟨false, false, false, false, false⟩ (by rfl) (by rfl)
    [] [] [] false false true false [] (by rfl)

/-- Witness for claim C3 at a concrete input requesting the segmentation
with no FreeSurfer directory. -/
theorem claim_C3_witness :
    exOk (init_highres_recon_anatomical_wf [] "qsiprep" "d" "01" none [] []
            ["mrtrix_5tt_hsvs"] false) = false :=
  claim_C3_hsvs_without_freesurfer_fails [] "qsiprep" "d" "01" [] []
    ["mrtrix_5tt_hsvs"] false (by rfl)

/-- Claim C4: whenever `init_dwi_recon_anatomical_workflow` returns a graph,
the input-sourced set and the locally-computed set are disjoint, every field
of `recon_workflow_input_fields` lies in exactly one of them, and no field
of the locally-computed set is also wired straight from the raw input node
to the output node (so a field claimed by the FreeSurfer-registration
branch, such as `t1_preproc`, is never also wired from the raw input). -/
theorem claim_C4_field_ownership_partition
    (flds fsF atl : List String) (h5 nt fs5 t1w tr fs : Bool)
    (extras : List String) (p : Bool)
    (hok : exOk (init_dwi_recon_anatomical_workflow flds fsF atl h5 nt fs5 t1w
            tr fs extras p) = true) :
    listDisjoint
      (okInput (init_dwi_recon_anatomical_workflow flds fsF atl h5 nt fs5 t1w
        tr fs extras p))
      (okBuf (init_dwi_recon_anatomical_workflow flds fsF atl h5 nt fs5 t1w
        tr fs extras p)) = true ∧
    flds.all (fun f =>
      (okInput (init_dwi_recon_anatomical_workflow flds fsF atl h5 nt fs5 t1w
        tr fs extras p)).contains f ||
      (okBuf (init_dwi_recon_anatomical_workflow flds fsF atl h5 nt fs5 t1w
        tr fs extras p)).contains f) = true ∧
    (okBuf (init_dwi_recon_anatomical_workflow flds fsF atl h5 nt fs5 t1w
        tr fs extras p)).all (fun f =>
      !((okWf (init_dwi_recon_anatomical_workflow flds fsF atl h5 nt fs5 t1w
          tr fs extras p)).edges.contains
            (Edge.mk "inputnode" f "outputnode" f))) = true := by
  cases hres : init_dwi_recon_anatomical_workflow flds fsF atl h5 nt fs5 t1w
      tr fs extras p with
  | error e => rw [hres] at hok; simp [exOk] at hok
  | ok r =>
    obtain ⟨E, s, hs, hin, hbuf, hNo, hpass, hmem⟩ :=
      init_dwi_ok_shape flds fsF atl h5 nt fs5 t1w tr fs extras p r hres
    have hdisj : s.Disjoint := by
      rcases hs with rfl | ⟨b1, b2, rfl⟩
      · exact dwiSets1_disjoint flds
      · exact dwiSets3_disjoint flds fsF b1 b2
    have hcov : s.Covers flds := by
      rcases hs with rfl | ⟨b1, b2, rfl⟩
      · exact dwiSets1_covers flds
      · exact dwiSets3_covers flds fsF b1 b2
    simp only [okInput, okBuf, okWf, hin, hbuf]
    refine ⟨?_, ?_, ?_⟩
    · rw [listDisjoint_eq_true]
      intro f hf
      exact hdisj f hf
    · rw [List.all_eq_true]
      intro f hf
      rcases hcov f hf with hmemin | hmembuf
      · simp [hmemin]
      · simp [hmembuf]
    · rw [List.all_eq_true]
      intro f hf
      simp only [Bool.not_eq_true', ← Bool.not_eq_true]
      intro hcontains
      have hedge : Edge.mk "inputnode" f "outputnode" f ∈ r.wf.edges := by
        simpa using hcontains
      rcases hmem _ hedge with hE | hP | hB
      · exact hNo f hE
      · rw [mem_passthroughInput] at hP
        obtain ⟨g, hg, hgeq⟩ := hP
        have : f = g := by
          have := congrArg Edge.srcPort hgeq
          simpa using this
        subst this
        exact hdisj f hg hf
      · rw [mem_passthroughBuffer] at hB
        obtain ⟨g, hg, hgeq⟩ := hB
        have := congrArg Edge.srcNode hgeq
        simp at this

/-- Claim C5: in every graph returned by
`init_dwi_recon_anatomical_workflow`, each field still in the input-sourced
set at finalization is wired unchanged from the raw input node to the
output node; this holds on every branch, including the early-returning
b0-mask branch. -/
theorem claim_C5_unclaimed_fields_pass_through
    (flds fsF atl : List String) (h5 nt fs5 t1w tr fs : Bool)
    (extras : List String) (p : Bool)
    (hok : exOk (init_dwi_recon_anatomical_workflow flds fsF atl h5 nt fs5 t1w
            tr fs extras p) = true) :
    (okInput (init_dwi_recon_anatomical_workflow flds fsF atl h5 nt fs5 t1w
        tr fs extras p)).all (fun f =>
      (okWf (init_dwi_recon_anatomical_workflow flds fsF atl h5 nt fs5 t1w
          tr fs extras p)).edges.contains
            (Edge.mk "inputnode" f "outputnode" f)) = true := by
  cases hres : init_dwi_recon_anatomical_workflow flds fsF atl h5 nt fs5 t1w
      tr fs extras p with
  | error e => rw [hres] at hok; simp [exOk] at hok
  | ok r =>
    obtain ⟨E, s, hs, hin, hbuf, hNo, hpass, hmem⟩ :=
      init_dwi_ok_shape flds fsF atl h5 nt fs5 t1w tr fs extras p r hres
    simp only [okInput, okWf, hin]
    rw [List.all_eq_true]
    intro f hf
    have : Edge.mk "inputnode" f "outputnode" f ∈
        passthroughInput s.connect_from_inputnode := by
      rw [mem_passthroughInput]
      exact ⟨f, hf, rfl⟩
    have := hpass _ this
    simpa using this

/-- Witness for claim C4 at a concrete early-return input. -/
theorem claim_C4_witness :
    listDisjoint
      (okInput (init_dwi_recon_anatomical_workflow ["t1_preproc", "dwi_mask"]
        [] [] false false false true false false [] true))
      (okBuf (init_dwi_recon_anatomical_workflow ["t1_preproc", "dwi_mask"]
        [] [] false false false true false false [] true)) = true ∧
    (["t1_preproc", "dwi_mask"] : List String).all (fun f =>
      (okInput (init_dwi_recon_anatomical_workflow ["t1_preproc", "dwi_mask"]
        [] [] false false false true false false [] true)).contains f ||
      (okBuf (init_dwi_recon_anatomical_workflow ["t1_preproc", "dwi_mask"]
        [] [] false false false true false false [] true)).contains f) = true ∧
    (okBuf (init_dwi_recon_anatomical_workflow ["t1_preproc", "dwi_mask"]
        [] [] false false false true false false [] true)).all (fun f =>
      !((okWf (init_dwi_recon_anatomical_workflow ["t1_preproc", "dwi_mask"]
          [] [] false false false true false false [] true)).edges.contains
            (Edge.mk "inputnode" f "outputnode" f))) = true :=
  claim_C4_field_ownership_partition ["t1_preproc", "dwi_mask"] [] [] false
    false false true false false [] true (by rfl)

/-- Witness for claim C5 at a concrete early-return input. -/
theorem claim_C5_witness :
    (okInput (init_dwi_recon_anatomical_workflow ["t1_preproc", "dwi_file"]
        [] [] false false false true false false [] true)).all (fun f =>
      (okWf (init_dwi_recon_anatomical_workflow ["t1_preproc", "dwi_file"]
          [] [] false false false true false false [] true)).edges.contains
            (Edge.mk "inputnode" f "outputnode" f)) = true :=
  claim_C5_unclaimed_fields_pass_through ["t1_preproc", "dwi_file"] [] []
    false false false true false false [] true (by rfl)

/-- Claim C6: for every subject whose QSIPrep derivatives directory contains
all required T1w anatomical files (brain mask and preprocessed T1w), the
probe reports nothing missing and `gather_qsiprep_anatomical_data` returns a
status record with `has_qsiprep_t1w = true`. -/
theorem claim_C6_complete_t1w_outputs
    (fsys : List String) (recon_input_dir subject_id : String)
    (h : ∀ r ∈ QSIRECON_ANAT_REQUIREMENTS subject_id,
      (recon_input_dir ++ "/" ++ r) ∈ fsys) :
    check_qsiprep_anatomical_outputs fsys recon_input_dir subject_id "T1w"
      = [] ∧
    (gather_qsiprep_anatomical_data fsys recon_input_dir
      subject_id).2.has_qsiprep_t1w = true := by
  have hempty : check_qsiprep_anatomical_outputs fsys recon_input_dir
      subject_id "T1w" = [] := by
    unfold check_qsiprep_anatomical_outputs
    simp only [beq_self_eq_true, if_true]
    rw [List.map_eq_nil_iff, List.filter_eq_nil_iff]
    intro r hr
    have hmem := h r hr
    simp [_check_zipped_unzipped, hmem]
  refine ⟨hempty, ?_⟩
  unfold gather_qsiprep_anatomical_data
  simp [hempty]

/-- Claim C7: for every subject missing a required QSIPrep T1w file with no
T2w equivalent, `has_qsiprep_t1w` is false and the specific missing path
appears in the probe report; the T2w substitution exists only in the
QSIPrep probe — the UKB and HCP probes report any non-existing requirement
as missing outright. -/
theorem claim_C7_missing_t1w_reported
    (fsys : List String) (recon_input_dir subject_id r : String)
    (hr : r ∈ QSIRECON_ANAT_REQUIREMENTS subject_id)
    (h1 : _check_zipped_unzipped fsys (recon_input_dir ++ "/" ++ r) = false)
    (h2 : _check_zipped_unzipped fsys
      (recon_input_dir ++ "/" ++ (strReplace r "_T1w" "_T2w")) = false)
    (ukb_dir hcp_dir u w : String)
    (hu : u ∈ UKB_REQUIREMENTS) (hu2 : (ukb_dir ++ "/" ++ u) ∉ fsys)
    (hw : w ∈ HCP_REQUIREMENTS) (hw2 : (hcp_dir ++ "/" ++ w) ∉ fsys) :
    (recon_input_dir ++ "/" ++ r) ∈
      check_qsiprep_anatomical_outputs fsys recon_input_dir subject_id "T1w" ∧
    (gather_qsiprep_anatomical_data fsys recon_input_dir
      subject_id).2.has_qsiprep_t1w = false ∧
    u ∈ check_ukb_anatomical_outputs fsys ukb_dir ∧
    w ∈ check_hcp_anatomical_outputs fsys hcp_dir := by
  have hmem : (recon_input_dir ++ "/" ++ r) ∈
      check_qsiprep_anatomical_outputs fsys recon_input_dir subject_id "T1w" := by
    unfold check_qsiprep_anatomical_outputs
    simp only [beq_self_eq_true, if_true, List.mem_map]
    refine ⟨r, ?_, rfl⟩
    rw [List.mem_filter]
    exact ⟨hr, by simp [h1, h2]⟩
  refine ⟨hmem, ?_, ?_, ?_⟩
  · unfold gather_qsiprep_anatomical_data
    have : check_qsiprep_anatomical_outputs fsys recon_input_dir subject_id
        "T1w" ≠ [] := List.ne_nil_of_mem hmem
    simpa [List.isEmpty_iff] using this
  · unfold check_ukb_anatomical_outputs
    rw [List.mem_filter]
    exact ⟨hu, by simp [hu2]⟩
  · unfold check_hcp_anatomical_outputs
    rw [List.mem_filter]
    exact ⟨hw, by simp [hw2]⟩

/-- Witness for claim C6: a subject with both required gzipped files
present. -/
theorem claim_C6_witness :
    check_qsiprep_anatomical_outputs
      ["d/sub-01/anat/sub-01_desc-brain_mask.nii.gz",
       "d/sub-01/anat/sub-01_desc-preproc_T1w.nii.gz"] "d" "01" "T1w" = [] ∧
    (gather_qsiprep_anatomical_data
      ["d/sub-01/anat/sub-01_desc-brain_mask.nii.gz",
       "d/sub-01/anat/sub-01_desc-preproc_T1w.nii.gz"] "d"
      "01").2.has_qsiprep_t1w = true :=
  claim_C6_complete_t1w_outputs
    ["d/sub-01/anat/sub-01_desc-brain_mask.nii.gz",
     "d/sub-01/anat/sub-01_desc-preproc_T1w.nii.gz"] "d" "01"
    (by decide)

/-- Witness for claim C7: an empty filesystem misses the brain-mask
requirement, and the UKB and HCP probes report their first requirements. -/
theorem claim_C7_witness :
    ("d/sub-01/anat/sub-01_desc-brain_mask.nii.gz") ∈
      check_qsiprep_anatomical_outputs [] "d" "01" "T1w" ∧
    (gather_qsiprep_anatomical_data [] "d" "01").2.has_qsiprep_t1w = false ∧
    "T1/T1_brain.nii.gz" ∈ check_ukb_anatomical_outputs [] "u" ∧
    "T1w/brainmask_fs.nii.gz" ∈ check_hcp_anatomical_outputs [] "h" :=
  claim_C7_missing_t1w_reported [] "d" "01"
    ("sub-01/anat/sub-01_desc-brain_mask.nii.gz")
    (by decide) (by decide) (by decide) "u" "h" "T1/T1_brain.nii.gz"
    "T1w/brainmask_fs.nii.gz" (by decide) (by decide) (by decide) (by decide)

/-- On the FreeSurfer-registration branch, every registered field is moved
from the input-sourced set to the locally-computed set, and stays out of
the input-sourced set through the optional stage-3 exchange. -/
theorem dwiSets3_fs_fields_moved (flds fsF : List String) (b2 : Bool)
    (f : String)
    (hf : f ∈ fsF ++ ["t1_brain_mask", "t1_preproc",
      "fs_to_qsiprep_transform_mrtrix", "fs_to_qsiprep_transform_itk"]) :
    f ∈ (dwiSets3 flds fsF true b2).connect_from_buffernode ∧
    f ∉ (dwiSets3 flds fsF true b2).connect_from_inputnode := by
  unfold dwiSets3 dwiSets2
  cases b2 with
  | false =>
    simp only [Bool.false_eq_true, if_false, if_true]
    constructor
    · rw [mem_exchange_buffernode]
      exact Or.inr hf
    · rw [mem_exchange_inputnode]
      rintro ⟨-, hno⟩
      exact hno hf
  | true =>
    simp only [if_true]
    constructor
    · rw [mem_exchange_buffernode]
      exact Or.inl ((mem_exchange_buffernode _ _ _).mpr (Or.inr hf))
    · rw [mem_exchange_inputnode]
      rintro ⟨hin2, -⟩
      rw [mem_exchange_inputnode] at hin2
      exact hin2.2 hf

/-- Claim C8: every successful call to `init_dwi_recon_anatomical_workflow`
with `has_freesurfer = true`, `has_qsiprep_t1w = false` and
`prefer_dwi_mask = false` adds the FreeSurfer-to-DWI registration subgraph,
returns a status record with `has_qsiprep_t1w = true` (the flag is
flipped), and moves the FreeSurfer-derived fields (`FS_FILES_TO_REGISTER`
plus `t1_preproc`, `t1_brain_mask` and the two fs-to-qsiprep transforms)
from the input-sourced set to the locally-computed set. -/
theorem claim_C8_freesurfer_registration_branch
    (flds fsF atl : List String) (h5 nt fs5 tr : Bool) (extras : List String)
    (hok : exOk (init_dwi_recon_anatomical_workflow flds fsF atl h5 nt fs5
            false tr true extras false) = true) :
    (okStatus (init_dwi_recon_anatomical_workflow flds fsF atl h5 nt fs5
        false tr true extras false)).has_qsiprep_t1w = true ∧
    (okWf (init_dwi_recon_anatomical_workflow flds fsF atl h5 nt fs5
        false tr true extras false)).edges.contains
      (Edge.mk "inputnode" "dwi_ref" "register_fs_to_qsiprep_wf"
        "inputnode.qsiprep_reference_image") = true ∧
    (okWf (init_dwi_recon_anatomical_workflow flds fsF atl h5 nt fs5
        false tr true extras false)).edges.contains
      (Edge.mk "register_fs_to_qsiprep_wf" "outputnode.brain" "buffernode"
        "t1_preproc") = true ∧
    (fsF ++ ["t1_brain_mask", "t1_preproc", "fs_to_qsiprep_transform_mrtrix",
      "fs_to_qsiprep_transform_itk"]).all (fun f =>
        (okBuf (init_dwi_recon_anatomical_workflow flds fsF atl h5 nt fs5
          false tr true extras false)).contains f &&
        !((okInput (init_dwi_recon_anatomical_workflow flds fsF atl h5 nt fs5
          false tr true extras false)).contains f)) = true := by
  cases hres : init_dwi_recon_anatomical_workflow flds fsF atl h5 nt fs5
      false tr true extras false with
  | error e => rw [hres] at hok; simp [exOk] at hok
  | ok r =>
    unfold init_dwi_recon_anatomical_workflow at hres
    simp only [Bool.or_false, Bool.false_or, Bool.not_true, Bool.not_false,
      Bool.and_true, Bool.true_and, Bool.false_eq_true, if_false, if_true] at hres
    rw [ite_eq_iff] at hres
    rcases hres with ⟨-, hres⟩ | ⟨-, hres⟩
    · simp at hres
    · rw [ite_eq_iff] at hres
      rcases hres with ⟨-, hres⟩ | ⟨-, hres⟩
      · simp at hres
      · obtain ⟨E, hE, hr⟩ := dwiAtlasStage_ok _ _ _ _ _ _ _ _ hres
        subst hr
        refine ⟨rfl, ?_, ?_, ?_⟩
        · have hmem : Edge.mk "inputnode" "dwi_ref" "register_fs_to_qsiprep_wf"
              "inputnode.qsiprep_reference_image" ∈ fsRegistrationEdges fsF := by
            simp [fsRegistrationEdges]
          have hmemE : Edge.mk "inputnode" "dwi_ref" "register_fs_to_qsiprep_wf"
              "inputnode.qsiprep_reference_image" ∈ E := by
            rcases hE with rfl | ⟨n, rfl⟩ <;>
              simp only [List.mem_append] <;> tauto
          simp only [okWf]
          simp [hmemE]
        · have hmem : Edge.mk "register_fs_to_qsiprep_wf" "outputnode.brain"
              "buffernode" "t1_preproc" ∈ fsRegistrationEdges fsF := by
            simp [fsRegistrationEdges]
          have hmemE : Edge.mk "register_fs_to_qsiprep_wf" "outputnode.brain"
              "buffernode" "t1_preproc" ∈ E := by
            rcases hE with rfl | ⟨n, rfl⟩ <;>
              simp only [List.mem_append] <;> tauto
          simp only [okWf]
          simp [hmemE]
        · rw [List.all_eq_true]
          intro f hf
          have hmoved := dwiSets3_fs_fields_moved flds fsF
            (extras.contains "mrtrix_5tt_hsvs" && !h5) f (by simpa using hf)
          simp only [okBuf, okInput]
          rw [Bool.and_eq_true, Bool.not_eq_true']
          constructor
          · simpa using hmoved.1
          · simpa using hmoved.2

/-- Witness for claim C8 at a concrete successful input. -/
theorem claim_C8_witness :
    (okStatus (init_dwi_recon_anatomical_workflow [] [] [] false false false
        false false true [] false)).has_qsiprep_t1w = true ∧
    (okWf (init_dwi_recon_anatomical_workflow [] [] [] false false false
        false false true [] false)).edges.contains
      (Edge.mk "inputnode" "dwi_ref" "register_fs_to_qsiprep_wf"
        "inputnode.qsiprep_reference_image") = true ∧
    (okWf (init_dwi_recon_anatomical_workflow [] [] [] false false false
        false false true [] false)).edges.contains
      (Edge.mk "register_fs_to_qsiprep_wf" "outputnode.brain" "buffernode"
        "t1_preproc") = true ∧
    (([] : List String) ++ ["t1_brain_mask", "t1_preproc",
      "fs_to_qsiprep_transform_mrtrix", "fs_to_qsiprep_transform_itk"]).all
        (fun f =>
          (okBuf (init_dwi_recon_anatomical_workflow [] [] [] false false false
            false false true [] false)).contains f &&
          !((okInput (init_dwi_recon_anatomical_workflow [] [] [] false false
            false false false true [] false)).contains f)) = true :=
  claim_C8_freesurfer_registration_branch [] [] [] false false false false []
    (by rfl)

/-- Claim C9 counterexample: the claim says that whenever the 5tt
segmentation is requested with `has_qsiprep_5tt_hsvs = false` and
`has_freesurfer_5tt_hsvs = false`, assembly raises a fatal error.  With
`prefer_dwi_mask = true` (and `has_qsiprep_t1w = true`) the call instead
succeeds through the early b0-mask return, which precedes the 5tt branch. -/
theorem claim_C9_counterexample :
    exOk (init_dwi_recon_anatomical_workflow [] [] [] false false false true
            false false ["mrtrix_5tt_hsvs"] true) = true := by
  rfl

/-- Claim C9 (amended): consider a call to
`init_dwi_recon_anatomical_workflow` that does not take the early b0-mask
return (`prefer_dwi_mask = false` and `has_qsiprep_t1w ∨ has_freesurfer`),
with the 5tt segmentation requested and `has_qsiprep_5tt_hsvs = false`.  If
the call returns a graph, then `has_freesurfer_5tt_hsvs` was true (an
absent fsnative segmentation is a fatal error, by contraposition), the
fsnative-to-DWI transform wiring is present in the graph, and
`qsiprep_5tt_hsvs` is claimed as locally computed. -/
theorem claim_C9_amended_hsvs_transform_branch
    (flds fsF atl : List String) (nt b t1w tr fs : Bool)
    (extras : List String)
    (hreq : extras.contains "mrtrix_5tt_hsvs" = true)
    (hanat : (t1w || fs) = true)
    (hok : exOk (init_dwi_recon_anatomical_workflow flds fsF atl false nt b
            t1w tr fs extras false) = true) :
    b = true ∧
    (okBuf (init_dwi_recon_anatomical_workflow flds fsF atl false nt b
        t1w tr fs extras false)).contains "qsiprep_5tt_hsvs" = true ∧
    (okInput (init_dwi_recon_anatomical_workflow flds fsF atl false nt b
        t1w tr fs extras false)).contains "qsiprep_5tt_hsvs" = false ∧
    (okWf (init_dwi_recon_anatomical_workflow flds fsF atl false nt b
        t1w tr fs extras false)).edges.contains
      (Edge.mk "inputnode" "fs_5tt_hsvs" "apply_header_to_5tt_hsvs"
        "in_image") = true ∧
    (okWf (init_dwi_recon_anatomical_workflow flds fsF atl false nt b
        t1w tr fs extras false)).edges.contains
      (Edge.mk "apply_header_to_5tt_hsvs" "out_image" "buffernode"
        "qsiprep_5tt_hsvs") = true := by
  cases hres : init_dwi_recon_anatomical_workflow flds fsF atl false nt b
      t1w tr fs extras false with
  | error e => rw [hres] at hok; simp [exOk] at hok
  | ok r =>
    unfold init_dwi_recon_anatomical_workflow at hres
    simp only [hanat, hreq, Bool.or_false, Bool.not_true, Bool.not_false,
      Bool.and_true, Bool.true_and, Bool.false_eq_true, if_false] at hres
    rw [ite_eq_iff] at hres
    rcases hres with ⟨-, hres⟩ | ⟨hb, hres⟩
    · simp at hres
    · have hbtrue : b = true := by
        by_cases hbv : b = true
        · exact hbv
        · exfalso
          apply hb
          simp [Bool.not_eq_true] at hbv
          simp [hbv]
      subst hbtrue
      rw [ite_eq_iff] at hres
      rcases hres with ⟨-, hres⟩ | ⟨-, hres⟩
      · simp at hres
      · obtain ⟨E, hE, hr⟩ := dwiAtlasStage_ok _ _ _ _ _ _ _ _ hres
        subst hr
        have hbuf : ("qsiprep_5tt_hsvs" : String) ∈
            (dwiSets3 flds fsF (fs && !t1w) true).connect_from_buffernode := by
          unfold dwiSets3
          simp only [if_true]
          rw [mem_exchange_buffernode]
          right
          simp
        have hinp : ("qsiprep_5tt_hsvs" : String) ∉
            (dwiSets3 flds fsF (fs && !t1w) true).connect_from_inputnode := by
          unfold dwiSets3
          simp only [if_true]
          rw [mem_exchange_inputnode]
          rintro ⟨-, hno⟩
          simp at hno
        have hedge1 : Edge.mk "inputnode" "fs_5tt_hsvs"
            "apply_header_to_5tt_hsvs" "in_image" ∈ hsvs5ttEdges := by
          simp [hsvs5ttEdges]
        have hedge2 : Edge.mk "apply_header_to_5tt_hsvs" "out_image"
            "buffernode" "qsiprep_5tt_hsvs" ∈ hsvs5ttEdges := by
          simp [hsvs5ttEdges]
        have hmemE1 : Edge.mk "inputnode" "fs_5tt_hsvs"
            "apply_header_to_5tt_hsvs" "in_image" ∈ E := by
          rcases hE with rfl | ⟨n, rfl⟩ <;>
            simp only [List.mem_append] <;> tauto
        have hmemE2 : Edge.mk "apply_header_to_5tt_hsvs" "out_image"
            "buffernode" "qsiprep_5tt_hsvs" ∈ E := by
          rcases hE with rfl | ⟨n, rfl⟩ <;>
            simp only [List.mem_append] <;> tauto
        refine ⟨rfl, ?_, ?_, ?_, ?_⟩
        · simp only [okBuf]
          simpa using hbuf
        · simp only [okInput]
          simpa using hinp
        · simp only [okWf]
          simp [hmemE1]
        · simp only [okWf]
          simp [hmemE2]

/-- Witness for claim C9 (amended) at a concrete successful input. -/
theorem claim_C9_amended_witness :
    true = true ∧
    (okBuf (init_dwi_recon_anatomical_workflow [] [] [] false false true
        true false false ["mrtrix_5tt_hsvs"] false)).contains
      "qsiprep_5tt_hsvs" = true ∧
    (okInput (init_dwi_recon_anatomical_workflow [] [] [] false false true
        true false false ["mrtrix_5tt_hsvs"] false)).contains
      "qsiprep_5tt_hsvs" = false ∧
    (okWf (init_dwi_recon_anatomical_workflow [] [] [] false false true
        true false false ["mrtrix_5tt_hsvs"] false)).edges.contains
      (Edge.mk "inputnode" "fs_5tt_hsvs" "apply_header_to_5tt_hsvs"
        "in_image") = true ∧
    (okWf (init_dwi_recon_anatomical_workflow [] [] [] false false true
        true false false ["mrtrix_5tt_hsvs"] false)).edges.contains
      (Edge.mk "apply_header_to_5tt_hsvs" "out_image" "buffernode"
        "qsiprep_5tt_hsvs") = true :=
  claim_C9_amended_hsvs_transform_branch [] [] [] false true true false false
    ["mrtrix_5tt_hsvs"] (by rfl) (by rfl) (by rfl)

/-- Claim C10: a required path that names a `.gz` file passes the QSIPrep
existence probe when the un-gzipped variant exists; consequently a subject
whose QSIPrep derivatives are present only in non-gzipped form still gets
`has_qsiprep_t1w = true` with nothing reported missing. -/
theorem claim_C10_gzip_fallback
    (fsys : List String) (p recon_input_dir subject_id : String)
    (hp1 : strEndsWith p ".gz" = true)
    (hp2 : p.dropRight 3 ∈ fsys)
    (hq1 : ∀ r ∈ QSIRECON_ANAT_REQUIREMENTS subject_id,
      strEndsWith (recon_input_dir ++ "/" ++ r) ".gz" = true)
    (hq2 : ∀ r ∈ QSIRECON_ANAT_REQUIREMENTS subject_id,
      (recon_input_dir ++ "/" ++ r).dropRight 3 ∈ fsys) :
    _check_zipped_unzipped fsys p = true ∧
    check_qsiprep_anatomical_outputs fsys recon_input_dir subject_id "T1w"
      = [] ∧
    (gather_qsiprep_anatomical_data fsys recon_input_dir
      subject_id).2.has_qsiprep_t1w = true := by
  have hsingle : ∀ q : String, strEndsWith q ".gz" = true →
      q.dropRight 3 ∈ fsys → _check_zipped_unzipped fsys q = true := by
    intro q h1 h2
    unfold _check_zipped_unzipped
    rw [h1]
    simp [h2]
  have hempty : check_qsiprep_anatomical_outputs fsys recon_input_dir
      subject_id "T1w" = [] := by
    unfold check_qsiprep_anatomical_outputs
    simp only [beq_self_eq_true, if_true]
    rw [List.map_eq_nil_iff, List.filter_eq_nil_iff]
    intro r hr
    have hc := hsingle (recon_input_dir ++ "/" ++ r) (hq1 r hr) (hq2 r hr)
    simp [hc]
  refine ⟨hsingle p hp1 hp2, hempty, ?_⟩
  unfold gather_qsiprep_anatomical_data
  simp [hempty]

/-- Witness for claim C10: a filesystem holding only the non-gzipped
variants of the two requirements and of a probe path. -/
theorem claim_C10_witness :
    _check_zipped_unzipped
      ["x.nii", "d/sub-01/anat/sub-01_desc-brain_mask.nii",
       "d/sub-01/anat/sub-01_desc-preproc_T1w.nii"] "x.nii.gz" = true ∧
    check_qsiprep_anatomical_outputs
      ["x.nii", "d/sub-01/anat/sub-01_desc-brain_mask.nii",
       "d/sub-01/anat/sub-01_desc-preproc_T1w.nii"] "d" "01" "T1w" = [] ∧
    (gather_qsiprep_anatomical_data
      ["x.nii", "d/sub-01/anat/sub-01_desc-brain_mask.nii",
       "d/sub-01/anat/sub-01_desc-preproc_T1w.nii"] "d"
      "01").2.has_qsiprep_t1w = true :=
  claim_C10_gzip_fallback
    ["x.nii", "d/sub-01/anat/sub-01_desc-brain_mask.nii",
     "d/sub-01/anat/sub-01_desc-preproc_T1w.nii"] "x.nii.gz" "d" "01"
    (by decide) (by decide) (by decide) (by decide)

end QSIRecon
